import Mathlib

/-!
Verification development for the mail ingestion pipeline:
shallow Lean embeddings of `models/lead_data.py`, `email_extractor.py`,
`imap_client.py` (connect retry loop) and `email_processor.py`
(processed-message ledger and orchestration), with theorems settling the
specification claims about them.
-/

namespace EmailPipeline

/-- Characters matched by the Python regex class `\d` (ASCII digits). -/
def isDigitChar (c : Char) : Bool := decide ('0' ≤ c) && decide (c ≤ '9')

/-- ASCII lowercase letters, the class `[a-z]`. -/
def isLowerAlpha (c : Char) : Bool := decide ('a' ≤ c) && decide (c ≤ 'z')

/-- ASCII uppercase letters, the class `[A-Z]`. -/
def isUpperAlpha (c : Char) : Bool := decide ('A' ≤ c) && decide (c ≤ 'Z')

/-- ASCII letters, the class `[A-Za-z]`. -/
def isAlphaChar (c : Char) : Bool := isLowerAlpha c || isUpperAlpha c

/-- Characters treated as whitespace by Python `str.strip` and the regex
class `\s` (ASCII range: space, tab, newline, carriage return, vertical
tab, form feed). -/
def isSpaceChar (c : Char) : Bool :=
  decide (c = ' ') || decide (c = '\t') || decide (c = '\n') || decide (c = '\r') ||
  decide (c = Char.ofNat 11) || decide (c = Char.ofNat 12)

/-- Python `str.strip()` on a character list. -/
def pyStrip (cs : List Char) : List Char :=
  ((cs.dropWhile isSpaceChar).reverse.dropWhile isSpaceChar).reverse

/-- Python `str.lower()` restricted to the ASCII letters that occur here. -/
def pyLower (c : Char) : Char :=
  if isUpperAlpha c then Char.ofNat (c.toNat + 32) else c

/-- Python `str.title()`-style uppercasing of one character. -/
def pyUpper (c : Char) : Char :=
  if isLowerAlpha c then Char.ofNat (c.toNat - 32) else c

/-- Python `str.title()`: a letter is uppercased when the previous character
is not a letter, lowercased otherwise.  The boolean argument records whether
the previous character was a letter. -/
def pyTitleGo : Bool → List Char → List Char
  | _, [] => []
  | prevAlpha, c :: cs =>
      (if isAlphaChar c then (if prevAlpha then pyLower c else pyUpper c) else c)
        :: pyTitleGo (isAlphaChar c) cs

/-- Python `str.title()`. -/
def pyTitle (s : String) : String := String.mk (pyTitleGo false s.data)

/-- Python `str.split()` (split on whitespace runs, dropping empty pieces). -/
def splitWsGo : List Char → List Char → List (List Char)
  | acc, [] => if acc.isEmpty then [] else [acc.reverse]
  | acc, c :: cs =>
      if isSpaceChar c then
        if acc.isEmpty then splitWsGo [] cs else acc.reverse :: splitWsGo [] cs
      else splitWsGo (c :: acc) cs

/-- Python `str.split()` on a character list. -/
def splitWs (cs : List Char) : List (List Char) := splitWsGo [] cs

/-- Characters admitted by the local part `[a-z0-9._%+-]` of the email
validation regex in `LeadData._normalize_email`. -/
def isLocalChar (c : Char) : Bool :=
  isLowerAlpha c || isDigitChar c || decide (c = '.') || decide (c = '_') ||
  decide (c = '%') || decide (c = '+') || decide (c = '-')

/-- Characters admitted by the domain part `[a-z0-9.-]` of the email
validation regex. -/
def isDomainChar (c : Char) : Bool :=
  isLowerAlpha c || isDigitChar c || decide (c = '.') || decide (c = '-')

/-- Full match of the regex fragment `[a-z0-9.-]+\.[a-z]{2,}` (the part of
`_normalize_email`'s pattern after the `@`): some split point yields a
non-empty domain body, a literal dot, and a TLD of at least two lowercase
letters ending the string. -/
def domainOk (cs : List Char) : Bool :=
  (List.range cs.length).any fun i =>
    match cs.drop i with
    | '.' :: tld =>
        decide (i ≠ 0) && (cs.take i).all isDomainChar &&
        decide (2 ≤ tld.length) && tld.all isLowerAlpha
    | _ => false

/-- Anchored full match of `^[a-z0-9._%+-]+@[a-z0-9.-]+\.[a-z]{2,}$`
from `LeadData._normalize_email`.  The local-part class excludes `@`, so
the greedy `+` is forced to stop at the first `@`. -/
def emailShapeOk (cs : List Char) : Bool :=
  match cs.takeWhile isLocalChar, cs.dropWhile isLocalChar with
  | [], _ => false
  | _ :: _, '@' :: dom => domainOk dom
  | _, _ => false

/-- `LeadData._normalize_email`: trim, lowercase, then validate against the
email regex; invalid addresses become `none`. -/
def normalize_email (s : String) : Option String :=
  if s = "" then none
  else
    let e := (pyStrip s.data).map pyLower
    if emailShapeOk e then some (String.mk e) else none

/-- `LeadData._normalize_phone`: keep the digits (`re.sub(r'[^\d]', '', ...)`);
with at least 10 digits return `digits[-10:]` when exactly 10 remain and the
full digit string otherwise; with fewer than 10 digits return `none`. -/
def normalize_phone (s : String) : Option String :=
  if s = "" then none
  else
    let digits := s.data.filter isDigitChar
    if 10 ≤ digits.length then
      some (String.mk (if digits.length = 10 then digits.drop (digits.length - 10) else digits))
    else none

/-- Anchored match of `^\d{4}-\d{2}-\d{2}$` from `_normalize_date`. -/
def isoShape : List Char → Bool
  | [a, b, c, d, h1, e, f, h2, g, h] =>
      [a, b, c, d, e, f, g, h].all isDigitChar && decide (h1 = '-') && decide (h2 = '-')
  | _ => false

/-- Anchored match of `^(\d{1,2})/(\d{1,2})/(\d{4})$` from `_normalize_date`,
returning the three groups.  Each `\d{1,2}` is followed by a delimiter
outside the class, so the maximal digit run is forced and must have length
one or two. -/
def slashShape (cs : List Char) : Option (List Char × List Char × List Char) :=
  let m := cs.takeWhile isDigitChar
  if m.length = 0 || 2 < m.length then none
  else
    match cs.dropWhile isDigitChar with
    | '/' :: r2 =>
        let d := r2.takeWhile isDigitChar
        if d.length = 0 || 2 < d.length then none
        else
          match r2.dropWhile isDigitChar with
          | '/' :: y =>
              if decide (y.length = 4) && y.all isDigitChar then some (m, d, y) else none
          | _ => none
    | _ => none

/-- Match of the tail `,?\s*(\d{4})$` of the month-name date regex: an
optional comma, optional whitespace, then exactly four digits ending the
string. -/
def tailYear (r : List Char) : Option (List Char) :=
  let r1 := match r with
    | ',' :: t => t
    | _ => r
  let r2 := r1.dropWhile isSpaceChar
  if decide (r2.length = 4) && r2.all isDigitChar then some r2 else none

/-- Match of `(\d{1,2}),?\s*(\d{4})$` against the remainder after the
month name and whitespace, returning (day digits, year digits).  When the
digit run ends the string, backtracking on the greedy `\d{1,2}` forces a
2+4 split of a 6-digit run and a 1+4 split of a 5-digit run; otherwise
the day is the whole 1- or 2-digit run and the rest must match
`,?\s*(\d{4})$`. -/
def dayYearSplit (r2 : List Char) : Option (List Char × List Char) :=
  let d := r2.takeWhile isDigitChar
  match r2.dropWhile isDigitChar with
  | [] =>
      if d.length = 6 then some (d.take 2, d.drop 2)
      else if d.length = 5 then some (d.take 1, d.drop 1)
      else none
  | r3 =>
      if decide (1 ≤ d.length) && decide (d.length ≤ 2) then
        match tailYear r3 with
        | some y => some (d, y)
        | none => none
      else none

/-- Anchored match of `^([A-Za-z]+)\s+(\d{1,2}),?\s*(\d{4})$` from
`_normalize_date`, returning (month name, day digits, year digits): a
non-empty letter run, at least one whitespace character, then the
day/year split of the remainder. -/
def monthNameShape (cs : List Char) : Option (List Char × List Char × List Char) :=
  let mon := cs.takeWhile isAlphaChar
  if mon.length = 0 then none
  else
    let r1 := cs.dropWhile isAlphaChar
    if (r1.takeWhile isSpaceChar).length = 0 then none
    else
      match dayYearSplit (r1.dropWhile isSpaceChar) with
      | some dy => some (mon, dy.1, dy.2)
      | none => none

/-- The twelve-entry month-name table from `_normalize_date`. -/
def month_map : List (String × Nat) :=
  [("january", 1), ("february", 2), ("march", 3), ("april", 4),
   ("may", 5), ("june", 6), ("july", 7), ("august", 8),
   ("september", 9), ("october", 10), ("november", 11), ("december", 12)]

/-- `month_map.get(month_name.lower())`. -/
def monthLookup (m : String) : Option Nat :=
  (month_map.find? fun p => p.1 = m).map (·.2)

/-- Python `str.zfill(2)` on a digit group of length one or two. -/
def zfill2 (cs : List Char) : List Char := if cs.length = 1 then '0' :: cs else cs

/-- The decimal digit character for `n % 10`-style values (`n ≤ 9` in all
uses; larger values clamp to `'9'`, which never occurs). -/
def digitChar (n : Nat) : Char :=
  if n = 0 then '0' else if n = 1 then '1' else if n = 2 then '2' else if n = 3 then '3'
  else if n = 4 then '4' else if n = 5 then '5' else if n = 6 then '6' else if n = 7 then '7'
  else if n = 8 then '8' else '9'

/-- Python `f"{n:02d}"` for the values that occur here (`n ≤ 99`: month
numbers 1–12 and day values parsed from at most two digits). -/
def natPad2 (n : Nat) : List Char :=
  if n < 10 then ['0', digitChar n] else [digitChar (n / 10), digitChar (n % 10)]

/-- Python `int(...)` on a digit string. -/
def digitsToNat (cs : List Char) : Nat :=
  cs.foldl (fun a c => a * 10 + (c.toNat - '0'.toNat)) 0

/-- `LeadData._normalize_date`: accept `YYYY-MM-DD` unchanged, then
`M/D/YYYY` month-first via `zfill(2)`, then `Month D, YYYY` through the
month table; everything else becomes `none`. -/
def normalize_date (s : String) : Option String :=
  if s = "" then none
  else
    let ds := pyStrip s.data
    if isoShape ds then some (String.mk ds)
    else
      match slashShape ds with
      | some mdy =>
          some (String.mk (mdy.2.2 ++ '-' :: (zfill2 mdy.1 ++ '-' :: zfill2 mdy.2.1)))
      | none =>
          match monthNameShape ds with
          | some mdy =>
              match monthLookup (String.mk (mdy.1.map pyLower)) with
              | some mnum =>
                  some (String.mk (mdy.2.2 ++ '-' ::
                    (natPad2 mnum ++ '-' :: natPad2 (digitsToNat mdy.2.1))))
              | none => none
          | none => none

/-- The platform alias table from `LeadData._normalize_platform`. -/
def platform_map : List (String × String) :=
  [("weddingwire", "WeddingWire"), ("the knot", "TheKnot"), ("theknot", "TheKnot"),
   ("zola", "Zola"), ("style me pretty", "StyleMePretty"), ("stylemepretty", "StyleMePretty")]

/-- `LeadData._normalize_platform`: trim, lowercase, map known aliases to
canonical tags, and title-case unknown strings. -/
def normalize_platform (s : String) : Option String :=
  if s = "" then none
  else
    let p := String.mk ((pyStrip s.data).map pyLower)
    some ((platform_map.find? fun q => q.1 = p).map (·.2) |>.getD (pyTitle p))

/-- The `LeadData` dataclass (post-normalization field values). -/
structure LeadData where
  name : Option String
  email : Option String
  phone : Option String
  wedding_date : Option String
  location : Option String
  partner_name : Option String
  services_interested : Option String
  budget : Option String
  message : Option String
  source_platform : Option String
  extraction_method : String
deriving DecidableEq

/-- Python truthiness of an optional string field. -/
def truthy : Option String → Bool
  | none => false
  | some s => !(s = "")

/-- The `__post_init__` guard `if self.field: self.field = normalize(...)`:
`None` and the empty string are left alone, other values are normalized. -/
def applyNorm (f : String → Option String) : Option String → Option String
  | none => none
  | some s => if s = "" then some s else f s

/-- The raw extraction dictionary handed to `create_lead_from_extraction`
(ten optional field values). -/
structure RawExtract where
  name : Option String
  email : Option String
  phone : Option String
  wedding_date : Option String
  location : Option String
  partner_name : Option String
  services_interested : Option String
  budget : Option String
  message : Option String
  source_platform : Option String
deriving DecidableEq

/-- `create_lead_from_extraction` followed by `LeadData.__post_init__`
normalization of email, phone, wedding date and platform. -/
def create_lead_from_extraction (d : RawExtract) (method : String) : LeadData :=
  { name := d.name
    email := applyNorm normalize_email d.email
    phone := applyNorm normalize_phone d.phone
    wedding_date := applyNorm normalize_date d.wedding_date
    location := d.location
    partner_name := d.partner_name
    services_interested := d.services_interested
    budget := d.budget
    message := d.message
    source_platform := applyNorm normalize_platform d.source_platform
    extraction_method := method }

/-- `LeadData.is_valid`: at least one of email and phone is populated. -/
def LeadData.is_valid (l : LeadData) : Bool := truthy l.email || truthy l.phone

/-- `LeadData.split_name`: first whitespace-separated word, rest joined by
single spaces. -/
def LeadData.split_name (l : LeadData) : String × String :=
  match l.name with
  | none => ("", "")
  | some n =>
      if n = "" then ("", "")
      else
        match splitWs (pyStrip n.data) with
        | [] => ("", "")
        | [p] => (String.mk p, "")
        | p :: rest => (String.mk p, String.intercalate " " (rest.map String.mk))

/-!
A small backtracking regular-expression engine implementing the semantics
of Python `re.search` under the flags `re.IGNORECASE | re.MULTILINE |
re.DOTALL` used by `EmailExtractor` (`detect_platform` passes only
`re.IGNORECASE`, but its patterns contain no construct affected by the
other two flags).  Alternation is left-to-right, quantifiers produce
longer matches first when greedy and shorter first when lazy, and the
overall result is the first match at the leftmost matching position —
exactly the backtracking priority order of the Python engine.
-/

/-- The character classes occurring in the extractor's patterns.  Matching
is case-insensitive throughout (`re.IGNORECASE`): a literal compares
lowercased, and `[A-Z]` / `[a-z]` each match any ASCII letter. -/
inductive CharClass where
  | lit (c : Char)
  | upper
  | lower
  | digit
  | space
  | word
  | anyCh
  | colonSpace
  | dashDotSpace
  | wordDotDash
  | notCloseQuote
deriving DecidableEq

/-- Whether a character class matches a character (case-insensitively). -/
def CharClass.matchc : CharClass → Char → Bool
  | .lit c, d => pyLower d = pyLower c
  | .upper, d => isAlphaChar d
  | .lower, d => isAlphaChar d
  | .digit, d => isDigitChar d
  | .space, d => isSpaceChar d
  | .word, d => isAlphaChar d || isDigitChar d || decide (d = '_')
  | .anyCh, _ => true
  | .colonSpace, d => decide (d = ':') || isSpaceChar d
  | .dashDotSpace, d => decide (d = '-') || decide (d = '.') || isSpaceChar d
  | .wordDotDash, d => isAlphaChar d || isDigitChar d || decide (d = '_') ||
      decide (d = '.') || decide (d = '-')
  | .notCloseQuote, d => !decide (d = '”')

/-- Regular expressions: empty, character class, concatenation,
alternation, greedy star, lazy star, the capturing group, and the
end-of-string anchor `\Z`. -/
inductive RE where
  | eps
  | cls (c : CharClass)
  | seq (a b : RE)
  | alt (a b : RE)
  | starG (a : RE)
  | starL (a : RE)
  | grp (a : RE)
  | endS

/-- One way a pattern can match a prefix of the input: the remaining
suffix and the text captured by the group, if the group participated. -/
structure MRes where
  rest : List Char
  cap : Option (List Char)
deriving DecidableEq

/-- Group captures from the second part of a concatenation overwrite those
of the first (each pattern here engages its single group at most once). -/
def mergeCap : Option (List Char) → Option (List Char) → Option (List Char)
  | a, none => a
  | _, some b => some b

/-- All matches of a pattern against a prefix of `s`, in backtracking
priority order.  The fuel bounds recursion depth; every use below supplies
more fuel than the pattern nesting depth plus the input length, which is
enough because each quantifier iteration consumes at least one input
character (empty iterations are cut off, as in the Python engine). -/
def runRE : Nat → RE → List Char → List MRes
  | 0, _, _ => []
  | fuel + 1, re, s =>
    match re with
    | .eps => [⟨s, none⟩]
    | .endS => if s.isEmpty then [⟨s, none⟩] else []
    | .cls c =>
        match s with
        | [] => []
        | x :: xs => if c.matchc x then [⟨xs, none⟩] else []
    | .seq a b =>
        (runRE fuel a s).flatMap fun r =>
          (runRE fuel b r.rest).map fun r2 => ⟨r2.rest, mergeCap r.cap r2.cap⟩
    | .alt a b => runRE fuel a s ++ runRE fuel b s
    | .grp a =>
        (runRE fuel a s).map fun r => ⟨r.rest, some (s.take (s.length - r.rest.length))⟩
    | .starG a =>
        ((runRE fuel a s).flatMap fun r =>
          if r.rest.length < s.length then
            (runRE fuel (.starG a) r.rest).map fun r2 => ⟨r2.rest, mergeCap r.cap r2.cap⟩
          else []) ++ [⟨s, none⟩]
    | .starL a =>
        ⟨s, none⟩ ::
        ((runRE fuel a s).flatMap fun r =>
          if r.rest.length < s.length then
            (runRE fuel (.starL a) r.rest).map fun r2 => ⟨r2.rest, mergeCap r.cap r2.cap⟩
          else [])

/-- Fuel that dominates pattern depth plus input length for every call in
this development. -/
def FUEL (s : List Char) : Nat := s.length + 200

/-- The Python engine's preferred match of `re` at the start of `s`. -/
def reFirst (re : RE) (s : List Char) : Option MRes := (runRE (FUEL s) re s).head?

/-- `re.search` returning `match.group(1)`: scan start positions left to
right and take the preferred match at the first position that has one. -/
def searchCap (re : RE) : List Char → Option (List Char)
  | [] =>
      match reFirst re [] with
      | some r => some (r.cap.getD [])
      | none => none
  | c :: xs =>
      match reFirst re (c :: xs) with
      | some r => some (r.cap.getD [])
      | none => searchCap re xs

/-- `re.search` used only for its truth value (platform detection). -/
def reHasMatch (re : RE) : List Char → Bool
  | [] => !(runRE (FUEL []) re []).isEmpty
  | c :: xs =>
      if (runRE (FUEL (c :: xs)) re (c :: xs)).isEmpty then reHasMatch re xs
      else true

/-- A literal string pattern (each character matched case-insensitively). -/
def reLit (s : String) : RE :=
  s.data.foldr (fun c acc => RE.seq (RE.cls (.lit c)) acc) RE.eps

/-- `a+` (greedy). -/
def rePlus (a : RE) : RE := .seq a (.starG a)

/-- `a?` (greedy: try the body before the empty alternative). -/
def reOpt (a : RE) : RE := .alt a .eps

/-- `a{n}`. -/
def reRep (a : RE) : Nat → RE
  | 0 => .eps
  | n + 1 => .seq a (reRep a n)

/-- `\s*`. -/
def sStar : RE := .starG (.cls .space)

/-- `\s+`. -/
def sPlus : RE := rePlus (.cls .space)

/-- `\d{1,2}` (greedy: two digits preferred over one). -/
def d12 : RE := .alt (reRep (.cls .digit) 2) (.cls .digit)

/-- `[A-Z][a-z]+`: one capitalized word (case-insensitive under the flags). -/
def wordTok : RE := .seq (.cls .upper) (rePlus (.cls .lower))

/-- `[A-Z][a-z]+\s+[A-Z][a-z]+(?:\s+[A-Z][a-z]+)?`: the two-or-three-word
name body shared by several name patterns. -/
def nameCore : RE :=
  .seq wordTok (.seq sPlus (.seq wordTok (reOpt (.seq sPlus wordTok))))

/-- `[A-Z][a-z]+\s+[A-Z][a-z]+`: a strictly two-word name body. -/
def nameTwo : RE := .seq wordTok (.seq sPlus wordTok)

/-- `[\w\.-]+@[\w\.-]+\.\w+`: the extraction email body. -/
def emailCore : RE :=
  .seq (rePlus (.cls .wordDotDash))
    (.seq (.cls (.lit '@'))
      (.seq (rePlus (.cls .wordDotDash))
        (.seq (.cls (.lit '.')) (rePlus (.cls .word)))))

/-- `\d{3}[-.\s]?\d{3}[-.\s]?\d{4}`: the bare phone alternative. -/
def phoneBare : RE :=
  .seq (reRep (.cls .digit) 3)
    (.seq (reOpt (.cls .dashDotSpace))
      (.seq (reRep (.cls .digit) 3)
        (.seq (reOpt (.cls .dashDotSpace)) (reRep (.cls .digit) 4))))

/-- `\(\d{3}\)\s*\d{3}[-.\s]?\d{4}`: the parenthesized phone alternative. -/
def phoneParen : RE :=
  .seq (.cls (.lit '('))
    (.seq (reRep (.cls .digit) 3)
      (.seq (.cls (.lit ')'))
        (.seq sStar
          (.seq (reRep (.cls .digit) 3)
            (.seq (reOpt (.cls .dashDotSpace)) (reRep (.cls .digit) 4))))))

/-- `[A-Z][a-z]+\s+\d{1,2},?\s+\d{4}`: a `Month D, YYYY` date body. -/
def dateWordy : RE :=
  .seq wordTok
    (.seq sPlus
      (.seq d12
        (.seq (reOpt (.cls (.lit ',')))
          (.seq sPlus (reRep (.cls .digit) 4)))))

/-- `\d{1,2}/\d{1,2}/\d{4}`: a slash date body. -/
def dateSlashy : RE :=
  .seq d12
    (.seq (.cls (.lit '/'))
      (.seq d12 (.seq (.cls (.lit '/')) (reRep (.cls .digit) 4))))

/-- `[A-Z][a-z]+(?:,\s*[A-Z][a-z]+)?`: the location body. -/
def locCore : RE :=
  .seq wordTok (reOpt (.seq (.cls (.lit ',')) (.seq sStar wordTok)))

/-- `PLATFORM_PATTERNS` from `email_extractor.py` (escaped dots are
literal dots; `stylemepretty\.(com|com)` keeps its duplicated group). -/
def PLATFORM_PATTERNS : List (String × List RE) :=
  [ ("WeddingWire",
      [reLit "weddingwire.com", reLit "WeddingWire", reLit "from WeddingWire"]),
    ("TheKnot",
      [reLit "theknot.com", reLit "theknot", reLit "from The Knot"]),
    ("Zola",
      [reLit "zola.com", reLit "from Zola", reLit "Zola Wedding"]),
    ("StyleMePretty",
      [.seq (reLit "stylemepretty.") (.grp (.alt (reLit "com") (reLit "com"))),
       reLit "Style Me Pretty", reLit "StyleMePretty"]) ]

/-- WeddingWire name pattern 1:
`(?:Inquiry from|Name:?|Contact:?)\s*([A-Z][a-z]+\s+[A-Z][a-z]+(?:\s+[A-Z][a-z]+)?)`. -/
def wwName1 : RE :=
  .seq (.alt (reLit "Inquiry from")
          (.alt (.seq (reLit "Name") (reOpt (.cls (.lit ':'))))
                (.seq (reLit "Contact") (reOpt (.cls (.lit ':'))))))
    (.seq sStar (.grp nameCore))

/-- WeddingWire name pattern 2: `([A-Z][a-z]+\s+[A-Z][a-z]+)\s+is interested`. -/
def wwName2 : RE :=
  .seq (.grp nameTwo) (.seq sPlus (reLit "is interested"))

/-- WeddingWire date pattern 1:
`(?:wedding\s*date|date|event\s*date)[:\s]+(dateWordy|dateSlashy)`. -/
def wwDate1 : RE :=
  .seq (.alt (.seq (reLit "wedding") (.seq sStar (reLit "date")))
          (.alt (reLit "date") (.seq (reLit "event") (.seq sStar (reLit "date")))))
    (.seq (rePlus (.cls .colonSpace)) (.grp (.alt dateWordy dateSlashy)))

/-- WeddingWire date pattern 2: `for\s+([A-Z][a-z]+\s+\d{1,2},?\s+\d{4})`. -/
def wwDate2 : RE := .seq (reLit "for") (.seq sPlus (.grp dateWordy))

/-- WeddingWire location pattern:
`(?:location|venue|city|where)[:\s]+([A-Z][a-z]+(?:,\s*[A-Z][a-z]+)?)`. -/
def wwLocation : RE :=
  .seq (.alt (reLit "location") (.alt (reLit "venue") (.alt (reLit "city") (reLit "where"))))
    (.seq (rePlus (.cls .colonSpace)) (.grp locCore))

/-- WeddingWire message pattern:
`(?:message|comments|inquiry|question)[:\s\n]+(.*?)(?:\n\n|\Z)`
(`[:\s\n]` equals `[:\s]`; `.` matches newline under `re.DOTALL`). -/
def wwMessage : RE :=
  .seq (.alt (reLit "message") (.alt (reLit "comments") (.alt (reLit "inquiry") (reLit "question"))))
    (.seq (rePlus (.cls .colonSpace))
      (.seq (.grp (.starL (.cls .anyCh))) (.alt (reLit "\n\n") .endS)))

/-- TheKnot name pattern: `(?:From|Name|Contact)[:\s]+(nameCore)`. -/
def tkName : RE :=
  .seq (.alt (reLit "From") (.alt (reLit "Name") (reLit "Contact")))
    (.seq (rePlus (.cls .colonSpace)) (.grp nameCore))

/-- TheKnot email pattern: `[Ee]mail[:\s]+(emailCore)`. -/
def tkEmail : RE :=
  .seq (.cls (.lit 'e'))
    (.seq (reLit "mail") (.seq (rePlus (.cls .colonSpace)) (.grp emailCore)))

/-- TheKnot phone pattern: `[Pp]hone[:\s]+(phoneBare)`. -/
def tkPhone : RE :=
  .seq (.cls (.lit 'p'))
    (.seq (reLit "hone") (.seq (rePlus (.cls .colonSpace)) (.grp phoneBare)))

/-- TheKnot date pattern: `(?:Wedding\s*Date|Date)[:\s]+(dateWordy)`. -/
def tkDate : RE :=
  .seq (.alt (.seq (reLit "Wedding") (.seq sStar (reLit "Date"))) (reLit "Date"))
    (.seq (rePlus (.cls .colonSpace)) (.grp dateWordy))

/-- TheKnot location pattern: `(?:Location|Venue|City)[:\s]+(locCore)`. -/
def tkLocation : RE :=
  .seq (.alt (reLit "Location") (.alt (reLit "Venue") (reLit "City")))
    (.seq (rePlus (.cls .colonSpace)) (.grp locCore))

/-- Zola name pattern 1:
`([A-Z][a-z]+ [A-Z][a-z]+) & [A-Z][a-z]+ [A-Z][a-z]+ sent you`. -/
def zName1 : RE :=
  .seq (.grp (.seq wordTok (.seq (.cls (.lit ' ')) wordTok)))
    (.seq (reLit " & ")
      (.seq wordTok (.seq (.cls (.lit ' ')) (.seq wordTok (reLit " sent you")))))

/-- Zola name pattern 2: `(?:Name|From)[:\s]+(nameCore)`. -/
def zName2 : RE :=
  .seq (.alt (reLit "Name") (reLit "From"))
    (.seq (rePlus (.cls .colonSpace)) (.grp nameCore))

/-- Zola email pattern 1: `Couple email: (emailCore)`. -/
def zEmail1 : RE := .seq (reLit "Couple email: ") (.grp emailCore)

/-- Zola phone pattern 1: `Couple phone: (\d{10})`. -/
def zPhone1 : RE := .seq (reLit "Couple phone: ") (.grp (reRep (.cls .digit) 10))

/-- Zola date pattern 1: `Desired day: ([A-Z][a-z]+ \d{1,2}, \d{4})`. -/
def zDate1 : RE :=
  .seq (reLit "Desired day: ")
    (.grp (.seq wordTok
      (.seq (.cls (.lit ' '))
        (.seq d12 (.seq (reLit ", ") (reRep (.cls .digit) 4))))))

/-- Zola date pattern 2: `Wedding\s+Date[:\s]+(dateSlashy)`. -/
def zDate2 : RE :=
  .seq (reLit "Wedding")
    (.seq sPlus (.seq (reLit "Date") (.seq (rePlus (.cls .colonSpace)) (.grp dateSlashy))))

/-- Zola location pattern: `Wedding Location: ([A-Z][a-z]+(?:, [A-Z]{2})?)`. -/
def zLocation : RE :=
  .seq (reLit "Wedding Location: ")
    (.grp (.seq wordTok (reOpt (.seq (reLit ", ") (reRep (.cls .upper) 2)))))

/-- Zola message pattern: `Their note to you\s*“([^”]+)”`. -/
def zMessage : RE :=
  .seq (reLit "Their note to you")
    (.seq sStar
      (.seq (.cls (.lit '“'))
        (.seq (.grp (rePlus (.cls .notCloseQuote))) (.cls (.lit '”')))))

/-- StyleMePretty name pattern: `Inquiry\s+from\s+([A-Z][a-z]+\s+[A-Z][a-z]+)`. -/
def smpName : RE :=
  .seq (reLit "Inquiry") (.seq sPlus (.seq (reLit "from") (.seq sPlus (.grp nameTwo))))

/-- `REGEX_PATTERNS` from `email_extractor.py`: per platform, the ordered
field/alternative table used by `extract_with_regex`. -/
def REGEX_PATTERNS : List (String × List (String × List RE)) :=
  [ ("WeddingWire",
      [("name", [wwName1, wwName2]),
       ("email", [.grp emailCore]),
       ("phone", [.grp (.alt phoneBare phoneParen)]),
       ("wedding_date", [wwDate1, wwDate2]),
       ("location", [wwLocation]),
       ("message", [wwMessage])]),
    ("TheKnot",
      [("name", [tkName]),
       ("email", [tkEmail]),
       ("phone", [tkPhone]),
       ("wedding_date", [tkDate]),
       ("location", [tkLocation])]),
    ("Zola",
      [("name", [zName1, zName2]),
       ("email", [zEmail1, .grp emailCore]),
       ("phone", [zPhone1, .grp phoneBare]),
       ("wedding_date", [zDate1, zDate2]),
       ("location", [zLocation]),
       ("message", [zMessage])]),
    ("StyleMePretty",
      [("name", [smpName]),
       ("email", [.grp emailCore]),
       ("phone", [.grp phoneBare])]) ]

/-- Python `dict.get(k, '')` on a header association list (keys unique). -/
def hget (hs : List (String × String)) (k : String) : String :=
  ((hs.find? fun p => p.1 = k).map (·.2)).getD ""

/-- `EmailExtractor.detect_platform`: search each platform's signature
patterns against body + from-header + subject-header; first platform with
any match wins; `none` when nothing matches. -/
def detect_platform (email_text : String) (headers : List (String × String)) : Option String :=
  let combined := email_text ++ " " ++ hget headers "from" ++ " " ++ hget headers "subject"
  (PLATFORM_PATTERNS.find? fun pp => pp.2.any fun re => reHasMatch re combined.data).map (·.1)

/-- `re.sub(r'\s+', ' ', value)`: collapse every whitespace run to a
single space. -/
def collapseWs : List Char → List Char
  | [] => []
  | c :: cs =>
      if isSpaceChar c then
        match collapseWs cs with
        | ' ' :: rest => ' ' :: rest
        | rest => ' ' :: rest
      else c :: collapseWs cs

/-- `match.group(1).strip()` followed by whitespace collapsing. -/
def clean_value (v : List Char) : String := String.mk (collapseWs (pyStrip v))

/-- First alternative whose search matches wins; its cleaned group is the
field value. -/
def tryAlternatives (alts : List RE) (text : List Char) : Option String :=
  match alts with
  | [] => none
  | re :: rest =>
      match searchCap re text with
      | some v => some (clean_value v)
      | none => tryAlternatives rest text

/-- `EmailExtractor.extract_with_regex`: look up the platform's field
table (falling back to WeddingWire's for unknown platforms), extract each
field by its first matching alternative, and always stamp the platform. -/
def extract_with_regex (email_text : String) (platform : String) : RawExtract :=
  let table :=
    ((REGEX_PATTERNS.find? fun p => p.1 = platform).map (·.2)).getD
      (((REGEX_PATTERNS.find? fun p => p.1 = "WeddingWire").map (·.2)).getD [])
  let get := fun (f : String) =>
    match table.find? fun p => p.1 = f with
    | some pr => tryAlternatives pr.2 email_text.data
    | none => none
  { name := get "name", email := get "email", phone := get "phone",
    wedding_date := get "wedding_date", location := get "location",
    partner_name := none, services_interested := none, budget := none,
    message := get "message", source_platform := some platform }

/-- Tail of `EmailExtractor.extract`: stamp the detected platform when the
extracted data lacks one, then build the `LeadData` (normalization runs in
`__post_init__`); an invalid lead is still returned. -/
def finishExtract (d : RawExtract) (method : String) (platform : Option String) : LeadData :=
  let d' :=
    match platform with
    | some p => if truthy d.source_platform then d else { d with source_platform := some p }
    | none => d
  create_lead_from_extraction d' method

/-- `EmailExtractor.extract`.  `use_ai` is `self.use_ai`; `aiResult` is the
outcome of `extract_with_ai` for this message (`none` for every soft
failure: network error, non-JSON or non-dict response, or an empty dict).
Platform is classified first; the model result is used when available,
otherwise the regex fallback runs, which requires a detected platform —
with no platform the extraction fails outright. -/
def extract (use_ai : Bool) (aiResult : Option RawExtract)
    (email_text from_addr subject : String) (headers : List (String × String)) :
    Option LeadData :=
  let platform := detect_platform email_text headers
  match (if use_ai then aiResult else none) with
  | some d => some (finishExtract d "ai" platform)
  | none =>
      match platform with
      | some p => some (finishExtract (extract_with_regex email_text p) "regex" platform)
      | none => none

/-!
`IMAPClient.connect` from `imap_client.py`, modelled from a disconnected
state.  Each attempt's outcome is abstracted: success, a raised
`imaplib.IMAP4.error` (the only exception class the retry branch
catches), or any other exception (for example a socket-level `OSError`
while opening the SSL connection), which the final `except Exception`
branch converts to an immediate `IMAPConnectionError`.
-/

/-- Outcome of one connection attempt. -/
inductive AttemptOutcome where
  | ok
  | imapError
  | otherError
deriving DecidableEq

/-- Result of `connect`: the successful attempt number with the total
delay slept so far, or an `IMAPConnectionError` with the delay slept
before failing. -/
inductive ConnectResult where
  | connected (attempt : Nat) (totalDelay : Nat)
  | connectionError (totalDelay : Nat)
deriving DecidableEq

/-- `IMAPClient.MAX_RECONNECT_ATTEMPTS`. -/
def MAX_RECONNECT_ATTEMPTS : Nat := 5

/-- `IMAPClient.BASE_RETRY_DELAY` (seconds). -/
def BASE_RETRY_DELAY : Nat := 2

/-- The recursive body of `connect(attempt)`: on `imaplib.IMAP4.error`,
while `attempt < MAX_RECONNECT_ATTEMPTS` sleep `base * 2^(attempt-1)` and
recurse with `attempt + 1`, else raise `IMAPConnectionError`; on any other
exception raise `IMAPConnectionError` at once.  `remaining` equals
`maxAttempts - attempt` and counts the retries still allowed. -/
def connectLoop (outcomes : Nat → AttemptOutcome) (base : Nat) :
    Nat → Nat → Nat → ConnectResult
  | attempt, 0, acc =>
      match outcomes attempt with
      | .ok => .connected attempt acc
      | .otherError => .connectionError acc
      | .imapError => .connectionError acc
  | attempt, r + 1, acc =>
      match outcomes attempt with
      | .ok => .connected attempt acc
      | .otherError => .connectionError acc
      | .imapError =>
          connectLoop outcomes base (attempt + 1) r (acc + base * 2 ^ (attempt - 1))

/-- `IMAPClient.connect()` called from a disconnected state. -/
def connect (outcomes : Nat → AttemptOutcome) (base maxAttempts : Nat) : ConnectResult :=
  connectLoop outcomes base 1 (maxAttempts - 1) 0

/-!
The processed-message ledger (`ProcessedEmailTracker`): a SQLite table
with `uid` as primary key, modelled as a list of rows; `INSERT OR
REPLACE` removes any row with the same key before inserting.
-/

/-- One row of the `processed_emails` table. -/
structure LedgerEntry where
  uid : String
  processed_at : String
  email_from : Option String
  subject : Option String
  contact_id : Option String
  platform : Option String
  status : String
deriving DecidableEq

/-- The table contents. -/
abbrev Ledger := List LedgerEntry

/-- `ProcessedEmailTracker.is_processed`: point lookup by uid. -/
def is_processed (db : Ledger) (uid : String) : Bool :=
  db.any fun e => e.uid == uid

/-- `ProcessedEmailTracker.mark_processed`: `INSERT OR REPLACE` keyed on
the `uid` primary key. -/
def mark_processed (db : Ledger) (e : LedgerEntry) : Ledger :=
  e :: db.filter fun x => !(x.uid == e.uid)

/-- The row stored for a uid, if any. -/
def getEntry (db : Ledger) (uid : String) : Option LedgerEntry :=
  db.find? fun e => e.uid == uid

/-- A sequence of `mark_processed` calls applied to an empty table. -/
def applyMarks (ops : List LedgerEntry) : Ledger :=
  ops.foldl mark_processed []

/-!
The orchestrator (`EmailProcessor`): metrics, the GHL CRM collaborator as
an oracle of call outcomes, and `find_existing_contact` /
`create_or_update_contact` / `process_email`.  Each function also returns
the list of outward collaborator calls it made, in order, so that claims
about "no extraction" and "zero downstream sync calls" are about the
recorded call trace.
-/

/-- The `self.metrics` counters of `EmailProcessor`. -/
structure Metrics where
  emails_processed : Nat
  leads_created : Nat
  leads_updated : Nat
  extraction_failures : Nat
  ghl_failures : Nat
deriving DecidableEq

/-- Outward calls made while processing one message. -/
inductive Event where
  | extractCall (uid : String)
  | searchCall (query : String)
  | updateCall (contact_id : String)
  | createCall (email first_name last_name phone : String)
  | opportunityCall (contact_id : String)
deriving DecidableEq

/-- A contact returned by the CRM search (`.get('id')`, `.get('email', '')`). -/
structure Contact where
  id : Option String
  email : Option String
deriving DecidableEq

/-- The GoHighLevel collaborator as an oracle of call outcomes.  `Except`
results model raised exceptions.  The pipeline/stage lookups are total
because `create_sales_opportunity` and the update path catch all of their
exceptions, making a raise observationally equal to a `None` result for
everything the orchestrator records. -/
structure GhlApi where
  search_contacts : String → Except String (List Contact)
  update_contact : String → Except String Unit
  create_contact : String → String → String → String → Except String (Option String)
  get_pipeline_id : String → Option String
  get_stage_id : String → String → Option String
  first_stage_id : String → Option String
  create_opportunity : String → String → String → String → Except String String

/-- Strategy 1 of `find_existing_contact`: when the lead has an email,
search for it and return the first result whose email matches it exactly
(case-insensitively); a search exception is caught and yields nothing. -/
def search_by_email (api : GhlApi) (lead : LeadData) : Option Contact × List Event :=
  match lead.email with
  | some em =>
      if em = "" then (none, [])
      else
        match api.search_contacts em with
        | .ok cs =>
            (cs.find? fun c => (c.email.getD "").data.map pyLower = em.data.map pyLower,
             [Event.searchCall em])
        | .error _ => (none, [Event.searchCall em])
  | none => (none, [])

/-- Strategy 2 of `find_existing_contact`: when the lead has a phone,
search for it and take the first result. -/
def search_by_phone (api : GhlApi) (lead : LeadData) : Option Contact × List Event :=
  match lead.phone with
  | some ph =>
      if ph = "" then (none, [])
      else
        match api.search_contacts ph with
        | .ok cs => (cs.head?, [Event.searchCall ph])
        | .error _ => (none, [Event.searchCall ph])
  | none => (none, [])

/-- Strategy 3 of `find_existing_contact`: when the lead has a name and a
wedding date, search the concatenation and take the first result. -/
def search_by_name_date (api : GhlApi) (lead : LeadData) : Option Contact × List Event :=
  match lead.name, lead.wedding_date with
  | some nm, some wd =>
      if nm = "" || wd = "" then (none, [])
      else
        match api.search_contacts (nm ++ " " ++ wd) with
        | .ok cs => (cs.head?, [Event.searchCall (nm ++ " " ++ wd)])
        | .error _ => (none, [Event.searchCall (nm ++ " " ++ wd)])
  | _, _ => (none, [])

/-- `EmailProcessor.find_existing_contact`: the three strategies in order,
each returning as soon as a contact is found; all search exceptions are
caught and fall through to the next strategy. -/
def find_existing_contact (api : GhlApi) (lead : LeadData) :
    Option Contact × List Event :=
  let s1 := search_by_email api lead
  if s1.1.isSome then s1
  else
    let s2 := search_by_phone api lead
    if s2.1.isSome then (s2.1, s1.2 ++ s2.2)
    else
      let s3 := search_by_name_date api lead
      (s3.1, s1.2 ++ s2.2 ++ s3.2)

/-- The apostrophe character (used in opportunity titles). -/
def apos : Char := Char.ofNat 39

/-- `EmailProcessor.generate_opportunity_title`. -/
def generate_opportunity_title (lead : LeadData) : String :=
  if truthy lead.name && truthy lead.partner_name then
    let b := String.mk ((splitWs (lead.name.getD "").data).headD [])
    let g := String.mk ((splitWs (lead.partner_name.getD "").data).headD [])
    b ++ " & " ++ g ++ String.mk [apos] ++ "s Wedding"
  else if truthy lead.name then
    String.mk ((splitWs (lead.name.getD "").data).headD []) ++ String.mk [apos] ++ "s Wedding"
  else "New Wedding Inquiry"

/-- `EmailProcessor.create_sales_opportunity`: resolve a SALES pipeline id
(three name fallbacks), a stage id (two names, then the first stage), then
create the opportunity; any exception is caught and yields `False`. -/
def create_sales_opportunity (api : GhlApi) (lead : LeadData) (contact_id : String) :
    Bool × List Event :=
  let pid :=
    match api.get_pipeline_id "1. SALES" with
    | some p => some p
    | none =>
        match api.get_pipeline_id "SALES" with
        | some p => some p
        | none => api.get_pipeline_id "Sales"
  match pid with
  | none => (false, [])
  | some p =>
      let sid :=
        match api.get_stage_id p "New Leads" with
        | some s => some s
        | none =>
            match api.get_stage_id p "New Lead" with
            | some s => some s
            | none => api.first_stage_id p
      match sid with
      | none => (false, [])
      | some s =>
          match api.create_opportunity p s contact_id (generate_opportunity_title lead) with
          | .ok _ => (true, [Event.opportunityCall contact_id])
          | .error _ => (false, [Event.opportunityCall contact_id])

/-- The `'noemail-<timestamp>@placeholder.com'` synthetic address used when
a lead reaches creation without an email. -/
def placeholder_email (ts : String) : String :=
  "noemail-" ++ ts ++ "@placeholder.com"

/-- The result dictionary of `create_or_update_contact`. -/
structure SyncResult where
  action : String
  contact_id : Option String
  status : String
deriving DecidableEq

/-- `EmailProcessor.create_or_update_contact`.  `ts` stands for the
current timestamp used in the placeholder email.  Update path: a failed
`update_contact` yields action `update_failed` with status `error` and
bumps `ghl_failures`; on success `leads_updated` is bumped and an
opportunity is attempted (failures swallowed) when a SALES pipeline
resolves.  Create path: the email argument falls back to the placeholder,
the phone argument to the empty string; a failed `create_contact` yields
action `create_failed` with status `error` and bumps `ghl_failures`; on
success `leads_created` is bumped and an opportunity is created. -/
def create_or_update_contact (api : GhlApi) (ts : String) (m : Metrics) (lead : LeadData) :
    SyncResult × Metrics × List Event :=
  let found := find_existing_contact api lead
  let names := lead.split_name
  match found.1 with
  | some c =>
      (match api.update_contact (c.id.getD "") with
       | .error _ =>
           ({ action := "update_failed", contact_id := c.id, status := "error" },
            { m with ghl_failures := m.ghl_failures + 1 },
            found.2 ++ [Event.updateCall (c.id.getD "")])
       | .ok _ =>
           let oppEv :=
             match api.get_pipeline_id "SALES" with
             | some _ => (create_sales_opportunity api lead (c.id.getD "")).2
             | none =>
                 match api.get_pipeline_id "1. SALES" with
                 | some _ => (create_sales_opportunity api lead (c.id.getD "")).2
                 | none => []
           ({ action := "updated", contact_id := c.id, status := "success" },
            { m with leads_updated := m.leads_updated + 1 },
            found.2 ++ [Event.updateCall (c.id.getD "")] ++ oppEv))
  | none =>
      let emailArg :=
        match lead.email with
        | some e => if e = "" then placeholder_email ts else e
        | none => placeholder_email ts
      let phoneArg :=
        match lead.phone with
        | some p => if p = "" then "" else p
        | none => ""
      match api.create_contact emailArg names.1 names.2 phoneArg with
      | .error _ =>
          ({ action := "create_failed", contact_id := none, status := "error" },
           { m with ghl_failures := m.ghl_failures + 1 },
           found.2 ++ [Event.createCall emailArg names.1 names.2 phoneArg])
      | .ok cid =>
          ({ action := "created", contact_id := cid, status := "success" },
           { m with leads_created := m.leads_created + 1 },
           found.2 ++ [Event.createCall emailArg names.1 names.2 phoneArg]
                   ++ (create_sales_opportunity api lead (cid.getD "")).2)

/-- The fetched message handed to `process_email`. -/
structure EmailMsg where
  uid : String
  subject : String
  from_addr : String
  body : String
  raw_headers : List (String × String)
deriving DecidableEq

/-- The orchestrator state threaded through `process_email`. -/
structure ProcState where
  ledger : Ledger
  metrics : Metrics
deriving DecidableEq

/-- The dictionary returned by `process_email`. -/
inductive ProcResult where
  | skipped (reason : String)
  | failed (reason : String)
  | synced (r : SyncResult)
deriving DecidableEq

/-- `EmailProcessor.process_email`.  Already-processed uids are skipped
before anything else runs.  Extraction runs otherwise (recorded as an
`extractCall`); a missing or invalid lead marks the ledger with status
`extraction_failed` and bumps `extraction_failures`.  Otherwise the
contact sync runs and the ledger records its `status` value, after which
`emails_processed` is bumped. -/
def process_email (use_ai : Bool) (aiResult : Option RawExtract) (api : GhlApi)
    (ts : String) (st : ProcState) (msg : EmailMsg) :
    ProcResult × ProcState × List Event :=
  if is_processed st.ledger msg.uid then
    (.skipped "already_processed", st, [])
  else
    match extract use_ai aiResult msg.body msg.from_addr msg.subject msg.raw_headers with
    | none =>
        (.failed "extraction_failed",
         { ledger := mark_processed st.ledger
             { uid := msg.uid, processed_at := ts, email_from := some msg.from_addr,
               subject := some msg.subject, contact_id := none, platform := none,
               status := "extraction_failed" },
           metrics := { st.metrics with
             extraction_failures := st.metrics.extraction_failures + 1 } },
         [Event.extractCall msg.uid])
    | some lead =>
        if !lead.is_valid then
          (.failed "extraction_failed",
           { ledger := mark_processed st.ledger
               { uid := msg.uid, processed_at := ts, email_from := some msg.from_addr,
                 subject := some msg.subject, contact_id := none, platform := none,
                 status := "extraction_failed" },
             metrics := { st.metrics with
               extraction_failures := st.metrics.extraction_failures + 1 } },
           [Event.extractCall msg.uid])
        else
          let synced := create_or_update_contact api ts st.metrics lead
          (.synced synced.1,
           { ledger := mark_processed st.ledger
               { uid := msg.uid, processed_at := ts, email_from := some msg.from_addr,
                 subject := some msg.subject, contact_id := synced.1.contact_id,
                 platform := lead.source_platform, status := synced.1.status },
             metrics := { synced.2.1 with
               emails_processed := synced.2.1.emails_processed + 1 } },
           Event.extractCall msg.uid :: synced.2.2)

/-!
Specification-side predicates and concrete fixtures used by the claim
theorems, their witnesses and counterexamples.
-/

/-- A string in the `YYYY-MM-DD` digit shape (the claims' "valid
YYYY-MM-DD string", which is the shape `_normalize_date`'s own ISO regex
recognizes). -/
def isoFormatShape (t : String) : Bool := isoShape t.data

/-- A stripped input is in the accepted `Month D, YYYY` shape when the
month-name regex matches and the month name is in the twelve-entry table. -/
def monthTableHit (ds : List Char) : Bool :=
  match monthNameShape ds with
  | some r => (monthLookup (String.mk (r.1.map pyLower))).isSome
  | none => false

/-- The three date shapes `_normalize_date` accepts: already-ISO
`YYYY-MM-DD`, `M/D/YYYY`, or `Month D, YYYY` with a known month name. -/
def inAcceptedDateShape (s : String) : Bool :=
  let ds := pyStrip s.data
  isoShape ds || (slashShape ds).isSome || monthTableHit ds

/-- Days in a month of the proleptic Gregorian calendar. -/
def daysInMonth (y m : Nat) : Nat :=
  if m = 2 then (if (y % 4 = 0 && !(y % 100 = 0)) || y % 400 = 0 then 29 else 28)
  else if m = 4 || m = 6 || m = 9 || m = 11 then 30 else 31

/-- A string denoting a valid ISO calendar date: `YYYY-MM-DD` digit shape
with a real month and a real day of that month. -/
def isValidISODate (t : String) : Bool :=
  match t.data with
  | [a, b, c, d, h1, e, f, h2, g, h] =>
      [a, b, c, d, e, f, g, h].all isDigitChar && decide (h1 = '-') && decide (h2 = '-') &&
      (let m := digitsToNat [e, f]
       let dd := digitsToNat [g, h]
       decide (1 ≤ m) && decide (m ≤ 12) && decide (1 ≤ dd) &&
       decide (dd ≤ daysInMonth (digitsToNat [a, b, c, d]) m))
  | _ => false

/-- The email arguments of the CRM create calls in a trace. -/
def createEmails (evs : List Event) : List String :=
  evs.filterMap fun e =>
    match e with
    | .createCall em _ _ _ => some em
    | _ => none

/-- Zero-valued metrics (daemon start). -/
def metrics0 : Metrics :=
  { emails_processed := 0, leads_created := 0, leads_updated := 0,
    extraction_failures := 0, ghl_failures := 0 }

/-- A benign CRM oracle: searches succeed with no results, updates and
creates succeed, no pipeline resolves. -/
def apiStub : GhlApi :=
  { search_contacts := fun _ => .ok []
    update_contact := fun _ => .ok ()
    create_contact := fun _ _ _ _ => .ok (some "c-1")
    get_pipeline_id := fun _ => none
    get_stage_id := fun _ _ => none
    first_stage_id := fun _ => none
    create_opportunity := fun _ _ _ _ => .error "unreachable" }

/-- A CRM oracle whose contact creation fails (HTTP error), everything
else as in `apiStub`. -/
def apiFailCreate : GhlApi :=
  { apiStub with create_contact := fun _ _ _ _ => .error "500 server error" }

/-- A ledger row used by concrete instances. -/
def entry42 : LedgerEntry :=
  { uid := "42", processed_at := "2025-01-01T00:00:00+00:00",
    email_from := some "leads@weddingwire.com", subject := some "New lead",
    contact_id := some "c-7", platform := some "WeddingWire", status := "success" }

/-- A message whose uid is already in the ledger (scenario B, second pass). -/
def msg42 : EmailMsg :=
  { uid := "42", subject := "New lead", from_addr := "leads@weddingwire.com",
    body := "Name: Sarah Johnson", raw_headers := [("from", "leads@weddingwire.com")] }

/-- A message with no recognizable platform signature (scenario C). -/
def msgNoPlat : EmailMsg :=
  { uid := "77", subject := "hello", from_addr := "friend@example.com",
    body := "see you tomorrow", raw_headers := [("from", "friend@example.com"), ("subject", "hello")] }

/-- Scenario A's message body: the four inquiry lines. -/
def scenarioBody : String :=
  "Name: Sarah Johnson\nEmail: sarah.johnson@email.com\nPhone: (555) 123-4567\nWedding Date: June 15, 2025"

/-- Scenario A's headers: the sender is on the `weddingwire.com` domain. -/
def scenarioHeaders : List (String × String) :=
  [("from", "leads@weddingwire.com"), ("subject", "New lead notification")]

/-- The record the pattern-fallback path actually produces on scenario
A's message (note the name field). -/
def scenarioLead : LeadData :=
  { name := some "Sarah Johnson Email", email := some "sarah.johnson@email.com",
    phone := some "5551234567", wedding_date := some "2025-06-15",
    location := none, partner_name := none, services_interested := none,
    budget := none, message := none, source_platform := some "WeddingWire",
    extraction_method := "regex" }

/-- Outcome sequence with a non-IMAP (socket-level) failure on the first
attempt and success from the second on. -/
def socketThenOk : Nat → AttemptOutcome :=
  fun n => if n = 1 then .otherError else .ok

/-- Outcome sequence with IMAP-protocol failures on attempts 1–4 and
success on attempt 5. -/
def fourFailsThenOk : Nat → AttemptOutcome :=
  fun n => if n < 5 then .imapError else .ok

/-- An AI extraction result carrying a valid email, used to drive the
orchestrator into the contact-creation path. -/
def rawAiLead : RawExtract :=
  { name := some "Ann Smith", email := some "ann@smith.org", phone := none,
    wedding_date := none, location := none, partner_name := none,
    services_interested := none, budget := none, message := none,
    source_platform := some "Zola" }

/-- A message processed through the AI path in concrete runs. -/
def msgAi : EmailMsg :=
  { uid := "u9", subject := "inquiry", from_addr := "x@zola.com",
    body := "Zola Wedding inquiry", raw_headers := [("from", "x@zola.com")] }

/-- The row of uid `42` as re-marked with a failure status (used to
exercise the upsert overwrite). -/
def entry42e : LedgerEntry := { entry42 with status := "error" }

/-- A lead with no email but a valid phone, reaching the creation path. -/
def leadNoEmail : LeadData :=
  { name := some "Ann Smith", email := none, phone := some "5551234567",
    wedding_date := none, location := none, partner_name := none,
    services_interested := none, budget := none, message := none,
    source_platform := some "Zola", extraction_method := "regex" }

/-! ## Theorems -/

/-- Marking updates membership: a uid is present after `mark_processed`
iff it is the marked uid or was present before. -/
theorem is_processed_mark (db : Ledger) (e : LedgerEntry) (id : String) :
    (is_processed (mark_processed db e) id = true ↔
      e.uid = id ∨ is_processed db id = true) := by
  simp only [is_processed, mark_processed, List.any_cons, List.any_eq_true, Bool.or_eq_true,
    beq_iff_eq, List.mem_filter]
  constructor
  · rintro (h | ⟨x, ⟨hx, _⟩, hx2⟩)
    · exact Or.inl h
    · exact Or.inr ⟨x, hx, hx2⟩
  · rintro (h | ⟨x, hx, hx2⟩)
    · exact Or.inl h
    · by_cases hxe : x.uid = e.uid
      · exact Or.inl (hxe ▸ hx2)
      · exact Or.inr ⟨x, ⟨hx, by simpa using hxe⟩, hx2⟩

/-- Marking preserves "at most one row per uid". -/
theorem countP_mark (db : Ledger) (e : LedgerEntry) (id : String)
    (h : db.countP (fun x => x.uid == id) ≤ 1) :
    (mark_processed db e).countP (fun x => x.uid == id) ≤ 1 := by
  unfold mark_processed
  rw [List.countP_cons]
  by_cases he : e.uid = id
  · have hz : (db.filter fun x => !(x.uid == e.uid)).countP (fun x => x.uid == id) = 0 := by
      rw [List.countP_eq_zero]
      intro a ha
      rcases List.mem_filter.mp ha with ⟨_, hne⟩
      simp only [beq_iff_eq]
      intro hai
      simp [hai, he] at hne
    simp [hz, he]
  · have hle : (db.filter fun x => !(x.uid == e.uid)).countP (fun x => x.uid == id)
        ≤ db.countP (fun x => x.uid == id) :=
      (List.filter_sublist db).countP_le _
    simp only [beq_iff_eq, he, if_false]
    omega

/-- Membership in a ledger built by a sequence of marks. -/
theorem is_processed_applyMarks_aux (ops : List LedgerEntry) (db : Ledger) (id : String) :
    (is_processed (ops.foldl mark_processed db) id = true ↔
      (∃ x ∈ ops, x.uid = id) ∨ is_processed db id = true) := by
  induction ops generalizing db with
  | nil => simp
  | cons x ops ih =>
      rw [List.foldl_cons, ih, is_processed_mark]
      constructor
      · rintro (⟨y, hy, hyid⟩ | h | h)
        · exact Or.inl ⟨y, List.mem_cons_of_mem _ hy, hyid⟩
        · exact Or.inl ⟨x, List.mem_cons_self _ _, h⟩
        · exact Or.inr h
      · rintro (⟨y, hy, hyid⟩ | h)
        · rcases List.mem_cons.mp hy with rfl | hy
          · exact Or.inr (Or.inl hyid)
          · exact Or.inl ⟨y, hy, hyid⟩
        · exact Or.inr (Or.inr h)

/-- Row-count bound for a ledger built by a sequence of marks. -/
theorem countP_applyMarks_aux (ops : List LedgerEntry) (db : Ledger) (id : String)
    (h : db.countP (fun x => x.uid == id) ≤ 1) :
    (ops.foldl mark_processed db).countP (fun x => x.uid == id) ≤ 1 := by
  induction ops generalizing db with
  | nil => simpa using h
  | cons x ops ih => exact ih _ (countP_mark _ _ _ h)

/-- Claim C2: starting from an empty ledger and any sequence of
`mark_processed` calls, `is_processed id` is true exactly when some prior
mark used that identifier (so false before any mark for it and true
immediately after one); the ledger never holds more than one row per
identifier; and a further mark for an identifier — in particular a second
mark for an already-marked one — overwrites the stored metadata with the
new entry rather than erroring or duplicating. -/
theorem c2_ledger_upsert (ops : List LedgerEntry) (id : String) (e : LedgerEntry) :
    (is_processed (applyMarks ops) id = true ↔ ∃ x ∈ ops, x.uid = id)
    ∧ (applyMarks ops).countP (fun x => x.uid == id) ≤ 1
    ∧ (e.uid = id → getEntry (mark_processed (applyMarks ops) e) id = some e) := by
  refine ⟨?_, ?_, ?_⟩
  · rw [applyMarks, is_processed_applyMarks_aux]
    simp [is_processed]
  · exact countP_applyMarks_aux ops [] id (by simp)
  · intro he
    simp [getEntry, mark_processed, List.find?_cons, he]

/-- Witness for C2 at a concrete mark sequence: uid `42` marked twice,
the second time with a different status. -/
theorem c2_witness :
    is_processed (applyMarks [entry42, entry42e]) "42" = true
    ∧ (applyMarks [entry42, entry42e]).countP (fun x => x.uid == "42") ≤ 1
    ∧ getEntry (mark_processed (applyMarks [entry42, entry42e]) entry42e) "42"
        = some entry42e := by
  have h := c2_ledger_upsert [entry42, entry42e] "42" entry42e
  exact ⟨h.1.mpr ⟨entry42, List.mem_cons_self _ _, rfl⟩, h.2.1, h.2.2 rfl⟩

/-- Claim C1: a message whose uid is already in the ledger is skipped:
the result is `skipped`, the state (ledger and metrics, in particular the
processed counter) is returned unchanged, and the call trace is empty (no
extraction, no CRM call). -/
theorem c1_already_processed_skips (use_ai : Bool) (aiRes : Option RawExtract)
    (api : GhlApi) (ts : String) (st : ProcState) (msg : EmailMsg)
    (h : is_processed st.ledger msg.uid = true) :
    process_email use_ai aiRes api ts st msg
      = (.skipped "already_processed", st, ([] : List Event)) := by
  simp [process_email, h]

/-- Witness for C1: a concrete ledger already containing uid 42. -/
theorem c1_witness :
    is_processed [entry42] msg42.uid = true
    ∧ process_email false none apiStub "t0" ⟨[entry42], metrics0⟩ msg42
        = (.skipped "already_processed", ⟨[entry42], metrics0⟩, ([] : List Event)) :=
  ⟨by decide,
   c1_already_processed_skips false none apiStub "t0" ⟨[entry42], metrics0⟩ msg42 (by decide)⟩

/-- Claim C5: phone normalization keeps exactly the digits; with at least
ten digits it returns the digit string (the last ten when exactly ten
remain, i.e. all of them, and the full digit string otherwise), an
all-digit value; with fewer than ten digits it returns `none`. -/
theorem c5_phone_normalization (s : String) :
    (10 ≤ (s.data.filter isDigitChar).length →
      normalize_phone s = some (String.mk
        (if (s.data.filter isDigitChar).length = 10
         then (s.data.filter isDigitChar).drop ((s.data.filter isDigitChar).length - 10)
         else s.data.filter isDigitChar))
      ∧ (s.data.filter isDigitChar).all isDigitChar = true)
    ∧ ((s.data.filter isDigitChar).length < 10 → normalize_phone s = none) := by
  have hall : (s.data.filter isDigitChar).all isDigitChar = true := by
    rw [List.all_eq_true]
    intro a ha
    exact (List.mem_filter.mp ha).2
  by_cases hs : s = ""
  · subst hs
    refine ⟨fun h => absurd h (by simp), fun _ => rfl⟩
  · constructor
    · intro hlen
      refine ⟨?_, hall⟩
      simp [normalize_phone, hs, hlen]
    · intro hlen
      have : ¬ 10 ≤ (s.data.filter isDigitChar).length := by omega
      simp [normalize_phone, hs, this]

/-- Witness for C5 at the scenario phone string. -/
theorem c5_witness :
    10 ≤ ("(555) 123-4567".data.filter isDigitChar).length
    ∧ normalize_phone "(555) 123-4567" = some "5551234567" := by
  refine ⟨by decide, ?_⟩
  have h := ((c5_phone_normalization "(555) 123-4567").1 (by decide)).1
  rw [h]
  decide

/-- Counterexample to C4 as stated: a network-level failure that raises
something other than `imaplib.IMAP4.error` (for example a socket
`OSError` while opening the SSL connection) on attempt 1, with attempt 2
ready to succeed and `max-attempts = 5`, is not retried: `connect` raises
`ConnectionError` immediately (zero delay), instead of succeeding on a
later attempt as the claim requires for every network-level failure. -/
theorem c4_counterexample :
    socketThenOk 1 = .otherError
    ∧ socketThenOk 2 = .ok
    ∧ connect socketThenOk BASE_RETRY_DELAY MAX_RECONNECT_ATTEMPTS
        = .connectionError 0 :=
  ⟨rfl, rfl, rfl⟩

/-- A successful attempt ends the retry loop. -/
theorem connectLoop_ok {outcomes : Nat → AttemptOutcome} {base attempt remaining acc : Nat}
    (h : outcomes attempt = .ok) :
    connectLoop outcomes base attempt remaining acc = .connected attempt acc := by
  cases remaining <;> simp [connectLoop, h]

/-- An IMAP-protocol failure with retries remaining sleeps the backoff
delay and moves to the next attempt. -/
theorem connectLoop_retry {outcomes : Nat → AttemptOutcome} {base attempt remaining acc : Nat}
    (h : outcomes attempt = .imapError) (hr : 0 < remaining) :
    connectLoop outcomes base attempt remaining acc
      = connectLoop outcomes base (attempt + 1) (remaining - 1)
          (acc + base * 2 ^ (attempt - 1)) := by
  match remaining, hr with
  | r + 1, _ => simp [connectLoop, h]

/-- An IMAP-protocol failure with no retries left raises `ConnectionError`. -/
theorem connectLoop_exhausted {outcomes : Nat → AttemptOutcome} {base attempt acc : Nat}
    (h : outcomes attempt = .imapError) :
    connectLoop outcomes base attempt 0 acc = .connectionError acc := by
  simp [connectLoop, h]

/-- Claim C4 (amended): `connect()` retries failures of the IMAP protocol
error type with exponential backoff `base * 2^(attempt-1)` up to the
maximum of 5 attempts.  If attempts `1..k-1` raise the IMAP error type and
attempt `k ≤ 5` succeeds, `connect` succeeds on attempt `k` having slept
`base * (2^0 + ... + 2^(k-2)) = base * (2^(k-1) - 1)` in total (for
`k = 5`: `base * (2^0 + 2^1 + 2^2 + 2^3)`); if all 5 attempts raise the
IMAP error type, it fails with `ConnectionError` after sleeping
`base * 15`.  Other exceptions are not retried (see the counterexample). -/
theorem c4_connect_backoff (outcomes : Nat → AttemptOutcome) (base k : Nat)
    (hk1 : 1 ≤ k) (hk : k ≤ MAX_RECONNECT_ATTEMPTS) :
    ((∀ i, 1 ≤ i → i < k → outcomes i = .imapError) → outcomes k = .ok →
      connect outcomes base MAX_RECONNECT_ATTEMPTS
        = .connected k (base * (2 ^ (k - 1) - 1)))
    ∧ ((∀ i, 1 ≤ i → i ≤ MAX_RECONNECT_ATTEMPTS → outcomes i = .imapError) →
      connect outcomes base MAX_RECONNECT_ATTEMPTS
        = .connectionError (base * 15)) := by
  have hk' : k ≤ 5 := hk
  constructor
  · intro hfail hok
    unfold connect
    interval_cases k
    · rw [connectLoop_ok hok]
      norm_num
    · rw [connectLoop_retry (hfail 1 (by norm_num) (by norm_num)) (by decide)]
      rw [connectLoop_ok hok]
      congr 1
      ring_nf
    · rw [connectLoop_retry (hfail 1 (by norm_num) (by norm_num)) (by decide)]
      rw [connectLoop_retry (hfail 2 (by norm_num) (by norm_num)) (by decide)]
      rw [connectLoop_ok hok]
      congr 1
      ring_nf
    · rw [connectLoop_retry (hfail 1 (by norm_num) (by norm_num)) (by decide)]
      rw [connectLoop_retry (hfail 2 (by norm_num) (by norm_num)) (by decide)]
      rw [connectLoop_retry (hfail 3 (by norm_num) (by norm_num)) (by decide)]
      rw [connectLoop_ok hok]
      congr 1
      ring_nf
    · rw [connectLoop_retry (hfail 1 (by norm_num) (by norm_num)) (by decide)]
      rw [connectLoop_retry (hfail 2 (by norm_num) (by norm_num)) (by decide)]
      rw [connectLoop_retry (hfail 3 (by norm_num) (by norm_num)) (by decide)]
      rw [connectLoop_retry (hfail 4 (by norm_num) (by norm_num)) (by decide)]
      rw [connectLoop_ok hok]
      congr 1
      ring_nf
  · intro hfail
    unfold connect
    rw [connectLoop_retry (hfail 1 (by norm_num) (by decide)) (by decide)]
    rw [connectLoop_retry (hfail 2 (by norm_num) (by decide)) (by decide)]
    rw [connectLoop_retry (hfail 3 (by norm_num) (by decide)) (by decide)]
    rw [connectLoop_retry (hfail 4 (by norm_num) (by decide)) (by decide)]
    rw [show MAX_RECONNECT_ATTEMPTS - 1 - 1 - 1 - 1 - 1 = 0 from rfl]
    rw [connectLoop_exhausted (hfail 5 (by norm_num) (by decide))]
    congr 1
    ring_nf

/-- Witness for C4: four IMAP-protocol failures then success, with the
source's constants (base delay 2, max attempts 5): connected on attempt 5
after a total delay of `2 * (1 + 2 + 4 + 8) = 30`. -/
theorem c4_witness :
    connect fourFailsThenOk BASE_RETRY_DELAY MAX_RECONNECT_ATTEMPTS
      = .connected 5 30 := by
  have h := (c4_connect_backoff fourFailsThenOk BASE_RETRY_DELAY 5 (by decide) (by decide)).1
    (fun i hi1 hi5 => by interval_cases i <;> rfl) rfl
  simpa using h

/-- A take-while prefix satisfies its predicate. -/
theorem all_takeWhile (p : Char → Bool) (l : List Char) : (l.takeWhile p).all p = true := by
  rw [List.all_eq_true]
  intro a ha
  exact List.mem_takeWhile_imp ha

/-- Dropping preserves `all`. -/
theorem all_drop (p : Char → Bool) (l : List Char) (n : Nat) (h : l.all p = true) :
    (l.drop n).all p = true := by
  rw [List.all_eq_true] at h ⊢
  exact fun a ha => h a (List.drop_subset n l ha)

/-- Taking preserves `all`. -/
theorem all_take (p : Char → Bool) (l : List Char) (n : Nat) (h : l.all p = true) :
    (l.take n).all p = true := by
  rw [List.all_eq_true] at h ⊢
  exact fun a ha => h a (List.take_subset n l ha)

/-- The zero character is a digit. -/
theorem isDigitChar_zero : isDigitChar '0' = true := by decide

/-- `digitChar` always yields a digit character. -/
theorem digitChar_digit (n : Nat) : isDigitChar (digitChar n) = true := by
  unfold digitChar
  split_ifs <;> decide

/-- `zfill2` of a one- or two-digit group is a two-digit group. -/
theorem zfill2_shape {cs : List Char} (h1 : 1 ≤ cs.length) (h2 : cs.length ≤ 2)
    (hd : cs.all isDigitChar = true) :
    (zfill2 cs).length = 2 ∧ (zfill2 cs).all isDigitChar = true := by
  unfold zfill2
  by_cases hl : cs.length = 1
  · simp [hl, hd, isDigitChar_zero]
  · have h2' : cs.length = 2 := by omega
    simp [hl, h2', hd]

/-- `natPad2` is always a two-digit group. -/
theorem natPad2_shape (n : Nat) :
    (natPad2 n).length = 2 ∧ (natPad2 n).all isDigitChar = true := by
  unfold natPad2
  split_ifs <;> simp [isDigitChar_zero, digitChar_digit]

/-- Assembling four digits, a dash, two digits, a dash and two digits
yields the `YYYY-MM-DD` shape. -/
theorem isoShape_concat {y m d : List Char} (hy : y.length = 4) (hm : m.length = 2)
    (hd : d.length = 2) (hya : y.all isDigitChar = true) (hma : m.all isDigitChar = true)
    (hda : d.all isDigitChar = true) :
    isoShape (y ++ '-' :: (m ++ '-' :: d)) = true := by
  rcases y with _ | ⟨y1, _ | ⟨y2, _ | ⟨y3, _ | ⟨y4, _ | ⟨y5, yt⟩⟩⟩⟩⟩ <;>
    rcases m with _ | ⟨m1, _ | ⟨m2, _ | ⟨m3, mt⟩⟩⟩ <;>
      rcases d with _ | ⟨d1, _ | ⟨d2, _ | ⟨d3, dt⟩⟩⟩ <;>
        simp_all [isoShape]

/-- Inversion of the `M/D/YYYY` matcher: the groups are digit groups of
the right sizes. -/
theorem slashShape_inv {cs m d y : List Char} (h : slashShape cs = some (m, d, y)) :
    (1 ≤ m.length ∧ m.length ≤ 2 ∧ m.all isDigitChar = true)
    ∧ (1 ≤ d.length ∧ d.length ≤ 2 ∧ d.all isDigitChar = true)
    ∧ (y.length = 4 ∧ y.all isDigitChar = true) := by
  unfold slashShape at h
  dsimp only at h
  split_ifs at h with h1
  split at h
  case _ r2 heq =>
    split_ifs at h with h2
    split at h
    case _ yy heq2 =>
      split_ifs at h with h3
      rw [Option.some_inj] at h
      simp only [Prod.mk.injEq] at h
      obtain ⟨rfl, rfl, rfl⟩ := h
      simp only [Bool.or_eq_true, decide_eq_true_eq, not_or, not_lt] at h1 h2
      simp only [Bool.and_eq_true, decide_eq_true_eq] at h3
      refine ⟨⟨by omega, h1.2, all_takeWhile _ _⟩,
              ⟨by omega, h2.2, all_takeWhile _ _⟩,
              h3.1, h3.2⟩
    case _ => simp at h
  case _ => simp at h

/-- Inversion of the `,?\s*(\d{4})$` tail matcher. -/
theorem tailYear_inv {r y : List Char} (h : tailYear r = some y) :
    y.length = 4 ∧ y.all isDigitChar = true := by
  unfold tailYear at h
  dsimp only at h
  split_ifs at h with hc
  simp only [Bool.and_eq_true, decide_eq_true_eq] at hc
  rw [Option.some_inj] at h
  exact h ▸ ⟨hc.1, hc.2⟩

/-- Inversion of the day/year split: the year group is four digits. -/
theorem dayYearSplit_inv {r2 d y : List Char} (h : dayYearSplit r2 = some (d, y)) :
    y.length = 4 ∧ y.all isDigitChar = true := by
  unfold dayYearSplit at h
  dsimp only at h
  split at h
  case _ heq =>
    split_ifs at h with h6 h5
    · rw [Option.some_inj] at h
      simp only [Prod.mk.injEq] at h
      obtain ⟨rfl, rfl⟩ := h
      refine ⟨?_, all_drop _ _ _ (all_takeWhile _ _)⟩
      rw [List.length_drop, h6]
    · rw [Option.some_inj] at h
      simp only [Prod.mk.injEq] at h
      obtain ⟨rfl, rfl⟩ := h
      refine ⟨?_, all_drop _ _ _ (all_takeWhile _ _)⟩
      rw [List.length_drop, h5]
  case _ r3 heq =>
    split_ifs at h with h4
    split at h
    case _ yy heq2 =>
      rw [Option.some_inj] at h
      simp only [Prod.mk.injEq] at h
      obtain ⟨rfl, rfl⟩ := h
      exact tailYear_inv heq2
    case _ => simp at h

/-- Inversion of the `Month D, YYYY` matcher: the year group is four
digits. -/
theorem monthNameShape_inv {cs mon d y : List Char}
    (h : monthNameShape cs = some (mon, d, y)) :
    y.length = 4 ∧ y.all isDigitChar = true := by
  unfold monthNameShape at h
  dsimp only at h
  split_ifs at h with h1 h2
  split at h
  case _ dy heq =>
    rw [Option.some_inj] at h
    simp only [Prod.mk.injEq] at h
    obtain ⟨rfl, rfl, rfl⟩ := h
    obtain ⟨dd, yy⟩ := dy
    exact dayYearSplit_inv heq
  case _ => simp at h

/-- Filtering by a predicate yields a list all of whose members satisfy
it. -/
theorem all_filter (p : Char → Bool) (l : List Char) : (l.filter p).all p = true := by
  rw [List.all_eq_true]
  exact fun a ha => (List.mem_filter.mp ha).2

/-- Every `some` result of `_normalize_date` has the `YYYY-MM-DD` digit
shape (four digits, dash, two digits, dash, two digits). -/
theorem normalize_date_some_shape {s t : String} (h : normalize_date s = some t) :
    isoFormatShape t = true := by
  unfold normalize_date at h
  dsimp only at h
  split_ifs at h with hs hiso
  · rw [Option.some_inj] at h
    subst h
    exact hiso
  · split at h
    case _ mdy heq =>
      rw [Option.some_inj] at h
      subst h
      obtain ⟨hm, hd, hy⟩ := @slashShape_inv (pyStrip s.data) mdy.1 mdy.2.1 mdy.2.2 heq
      obtain ⟨hml, hma⟩ := zfill2_shape hm.1 hm.2.1 hm.2.2
      obtain ⟨hdl, hda⟩ := zfill2_shape hd.1 hd.2.1 hd.2.2
      exact isoShape_concat hy.1 hml hdl hy.2 hma hda
    case _ heq =>
      split at h
      case _ mdy heq2 =>
        split at h
        case _ mnum heq3 =>
          rw [Option.some_inj] at h
          subst h
          obtain ⟨hy4, hya⟩ :=
            @monthNameShape_inv (pyStrip s.data) mdy.1 mdy.2.1 mdy.2.2 heq2
          obtain ⟨hml, hma⟩ := natPad2_shape mnum
          obtain ⟨hdl, hda⟩ := natPad2_shape (digitsToNat mdy.2.1)
          exact isoShape_concat hy4 hml hdl hya hma hda
        case _ => simp at h
      case _ => simp at h

/-- `_normalize_date` succeeds exactly on the three accepted shapes. -/
theorem normalize_date_isSome (s : String) :
    (normalize_date s).isSome = inAcceptedDateShape s := by
  unfold normalize_date inAcceptedDateShape monthTableHit
  by_cases hs : s = ""
  · subst hs
    rfl
  · simp only [hs, if_false]
    by_cases hiso : isoShape (pyStrip s.data)
    · simp [hiso]
    · simp only [hiso, if_false, Bool.false_or]
      cases hsl : slashShape (pyStrip s.data) with
      | some mdy => simp [hsl]
      | none =>
          simp only [hsl, Option.isSome_none, Bool.false_or]
          cases hmn : monthNameShape (pyStrip s.data) with
          | none => simp [hmn]
          | some mdy =>
              cases hml : monthLookup (String.mk (mdy.1.map pyLower)) with
              | none => simp [hmn, hml]
              | some mnum => simp [hmn, hml]

/-- Claim C6: every date string in one of the three accepted shapes —
already-ISO `YYYY-MM-DD` (returned unchanged), `M/D/YYYY` month-first, or
`Month D, YYYY` through the twelve-entry month table — normalizes to a
string in valid `YYYY-MM-DD` form (four digits, dash, two digits, dash,
two digits), any other input normalizes to `none`, and in particular
`"June 15, 2025"` yields exactly `"2025-06-15"` and `"3/1/2026"` yields
exactly `"2026-03-01"`. -/
theorem c6_date_shapes (s : String) :
    (inAcceptedDateShape s = true →
      ∃ t, normalize_date s = some t ∧ isoFormatShape t = true)
    ∧ (inAcceptedDateShape s = false → normalize_date s = none)
    ∧ normalize_date "June 15, 2025" = some "2025-06-15"
    ∧ normalize_date "3/1/2026" = some "2026-03-01" := by
  refine ⟨?_, ?_, by decide, by decide⟩
  · intro h
    have hiss : (normalize_date s).isSome = true := by rw [normalize_date_isSome, h]
    obtain ⟨t, ht⟩ := Option.isSome_iff_exists.mp hiss
    exact ⟨t, ht, normalize_date_some_shape ht⟩
  · intro h
    have hiss : (normalize_date s).isSome = false := by rw [normalize_date_isSome, h]
    exact Option.not_isSome_iff_eq_none.mp (by simp [hiss])

/-- Witness for C6 at `"3/1/2026"`. -/
theorem c6_witness :
    normalize_date "3/1/2026" = some "2026-03-01"
    ∧ isoFormatShape "2026-03-01" = true := by
  obtain ⟨t, ht, hshape⟩ := (c6_date_shapes "3/1/2026").1 (by decide)
  have heq := (c6_date_shapes "3/1/2026").2.2.2
  rw [heq] at ht
  injection ht with ht
  subst ht
  exact ⟨heq, hshape⟩

/-- Counterexample to C7 as stated: date normalization does not guarantee
a valid ISO calendar date.  The input `"13/13/2026"` matches the
`M/D/YYYY` shape and is emitted as `"2026-13-13"`, which has month 13 —
not a calendar date. -/
theorem c7_counterexample :
    normalize_date "13/13/2026" = some "2026-13-13"
    ∧ isValidISODate "2026-13-13" = false := by
  exact ⟨by decide, by decide⟩

/-- Claim C7 (amended): each normalization function produces a canonical
value or `none`: email normalization only emits strings matching the
lowercase `local@domain.tld` email shape; phone normalization only emits
all-digit strings of at least ten digits; date normalization only emits
strings in `YYYY-MM-DD` digit form — but, unlike the original claim, the
date value is guaranteed only to have that shape, not to be a valid ISO
calendar date (see the counterexample). -/
theorem c7_normalization_canonical (s : String) :
    (∀ e, normalize_email s = some e → emailShapeOk e.data = true)
    ∧ (∀ p, normalize_phone s = some p →
        p.data.all isDigitChar = true ∧ 10 ≤ p.data.length)
    ∧ (∀ t, normalize_date s = some t → isoFormatShape t = true) := by
  refine ⟨?_, ?_, fun t ht => normalize_date_some_shape ht⟩
  · intro e he
    unfold normalize_email at he
    dsimp only at he
    split_ifs at he with hs hok
    rw [Option.some_inj] at he
    subst he
    exact hok
  · intro p hp
    unfold normalize_phone at hp
    dsimp only at hp
    split_ifs at hp with hs hlen h10
    · rw [Option.some_inj] at hp
      subst hp
      refine ⟨all_drop _ _ _ (all_filter _ _), ?_⟩
      show 10 ≤ ((s.data.filter isDigitChar).drop
        ((s.data.filter isDigitChar).length - 10)).length
      rw [List.length_drop]
      omega
    · rw [Option.some_inj] at hp
      subst hp
      exact ⟨all_filter _ _, hlen⟩

/-- Witness for C7 at concrete inputs for all three normalizers. -/
theorem c7_witness :
    emailShapeOk ("sarah.johnson@email.com" : String).data = true
    ∧ (("5551234567" : String).data.all isDigitChar = true
        ∧ 10 ≤ ("5551234567" : String).data.length)
    ∧ isoFormatShape "2025-06-15" = true := by
  refine ⟨?_, ?_, ?_⟩
  · exact (c7_normalization_canonical " Sarah.Johnson@Email.COM ").1
      "sarah.johnson@email.com" (by decide)
  · exact (c7_normalization_canonical "(555) 123-4567").2.1 "5551234567" (by decide)
  · exact (c7_normalization_canonical "June 15, 2025").2.2 "2025-06-15" (by decide)

/-- With no usable AI result and no detected platform, extraction fails
outright. -/
theorem extract_none_of_no_platform (use_ai : Bool) (aiRes : Option RawExtract)
    (body from_addr subject : String) (headers : List (String × String))
    (hplat : detect_platform body headers = none)
    (hai : use_ai = false ∨ aiRes = none) :
    extract use_ai aiRes body from_addr subject headers = none := by
  unfold extract
  dsimp only
  rcases hai with h | h
  · subst h
    rw [hplat]
    rfl
  · subst h
    rw [hplat]
    cases use_ai <;> rfl

/-- Claim C8: for a message whose body and headers match no platform
signature, with the AI backend disabled or its attempt soft-failing, and
whose uid is not yet in the ledger, `process_email` fails: extraction
returns no result, the ledger records status `extraction_failed` for the
uid (and the extraction-failure counter is bumped), and the call trace
holds only the extraction call — zero downstream CRM sync calls. -/
theorem c8_no_platform_extraction_failed (use_ai : Bool) (aiRes : Option RawExtract)
    (api : GhlApi) (ts : String) (st : ProcState) (msg : EmailMsg)
    (hnew : is_processed st.ledger msg.uid = false)
    (hplat : detect_platform msg.body msg.raw_headers = none)
    (hai : use_ai = false ∨ aiRes = none) :
    process_email use_ai aiRes api ts st msg
      = (.failed "extraction_failed",
         { ledger := mark_processed st.ledger
             { uid := msg.uid, processed_at := ts, email_from := some msg.from_addr,
               subject := some msg.subject, contact_id := none, platform := none,
               status := "extraction_failed" },
           metrics := { st.metrics with
             extraction_failures := st.metrics.extraction_failures + 1 } },
         [Event.extractCall msg.uid])
    ∧ getEntry (process_email use_ai aiRes api ts st msg).2.1.ledger msg.uid
        = some { uid := msg.uid, processed_at := ts, email_from := some msg.from_addr,
                 subject := some msg.subject, contact_id := none, platform := none,
                 status := "extraction_failed" } := by
  have hex := extract_none_of_no_platform use_ai aiRes msg.body msg.from_addr msg.subject
    msg.raw_headers hplat hai
  have hmain : process_email use_ai aiRes api ts st msg
      = (.failed "extraction_failed",
         { ledger := mark_processed st.ledger
             { uid := msg.uid, processed_at := ts, email_from := some msg.from_addr,
               subject := some msg.subject, contact_id := none, platform := none,
               status := "extraction_failed" },
           metrics := { st.metrics with
             extraction_failures := st.metrics.extraction_failures + 1 } },
         [Event.extractCall msg.uid]) := by
    unfold process_email
    rw [hnew, hex]
    rfl
  refine ⟨hmain, ?_⟩
  rw [hmain]
  simp [getEntry, mark_processed]

/-- Witness for C8: a concrete message with no platform signature,
processed from an empty ledger with the AI backend disabled. -/
theorem c8_witness :
    (is_processed ([] : Ledger) msgNoPlat.uid = false
      ∧ detect_platform msgNoPlat.body msgNoPlat.raw_headers = none)
    ∧ process_email false none apiStub "t1" ⟨[], metrics0⟩ msgNoPlat
        = (.failed "extraction_failed",
           { ledger := mark_processed []
               { uid := msgNoPlat.uid, processed_at := "t1",
                 email_from := some msgNoPlat.from_addr,
                 subject := some msgNoPlat.subject, contact_id := none, platform := none,
                 status := "extraction_failed" },
             metrics := { metrics0 with extraction_failures := 1 } },
           [Event.extractCall msgNoPlat.uid]) := by
  refine ⟨⟨rfl, by decide⟩, ?_⟩
  exact (c8_no_platform_extraction_failed false none apiStub "t1" ⟨[], metrics0⟩ msgNoPlat
    rfl (by decide) (Or.inl rfl)).1

/-- A row of a marked ledger is the new row or an old row. -/
theorem mem_mark {db : Ledger} {e x : LedgerEntry} (hx : x ∈ mark_processed db e) :
    x = e ∨ x ∈ db := by
  rcases List.mem_cons.mp hx with h | h
  · exact Or.inl h
  · exact Or.inr (List.mem_filter.mp h).1

/-- The four outcomes of `create_or_update_contact`: the result dictionary
pairs action `updated`/`created` with status `success` and action
`update_failed`/`create_failed` with status `error`. -/
theorem create_or_update_cases (api : GhlApi) (ts : String) (m : Metrics) (lead : LeadData) :
    ((create_or_update_contact api ts m lead).1.action = "updated"
        ∧ (create_or_update_contact api ts m lead).1.status = "success")
    ∨ ((create_or_update_contact api ts m lead).1.action = "update_failed"
        ∧ (create_or_update_contact api ts m lead).1.status = "error")
    ∨ ((create_or_update_contact api ts m lead).1.action = "created"
        ∧ (create_or_update_contact api ts m lead).1.status = "success")
    ∨ ((create_or_update_contact api ts m lead).1.action = "create_failed"
        ∧ (create_or_update_contact api ts m lead).1.status = "error") := by
  unfold create_or_update_contact
  dsimp only
  split
  · split
    · exact Or.inr (Or.inl ⟨rfl, rfl⟩)
    · exact Or.inl ⟨rfl, rfl⟩
  · split
    · exact Or.inr (Or.inr (Or.inr ⟨rfl, rfl⟩))
    · exact Or.inr (Or.inr (Or.inl ⟨rfl, rfl⟩))

/-- Claim C9 (amended): every ledger row written by `process_email`
carries status `success`, `extraction_failed`, or `error` — the
`create_failed` / `update_failed` strings of the original claim are the
`action` field of the sync result, not ledger statuses; in particular a
failed CRM create and a failed CRM update are both recorded with ledger
status `error` (their result actions being `create_failed` and
`update_failed` respectively). -/
theorem c9_ledger_statuses (use_ai : Bool) (aiRes : Option RawExtract) (api : GhlApi)
    (ts : String) (st : ProcState) (msg : EmailMsg) :
    (∀ e ∈ (process_email use_ai aiRes api ts st msg).2.1.ledger,
      e ∈ st.ledger ∨ e.status = "success" ∨ e.status = "extraction_failed"
        ∨ e.status = "error")
    ∧ (∀ (m : Metrics) (lead : LeadData),
        ((create_or_update_contact api ts m lead).1.action = "create_failed"
          ∨ (create_or_update_contact api ts m lead).1.action = "update_failed") →
        (create_or_update_contact api ts m lead).1.status = "error") := by
  constructor
  · intro e he
    unfold process_email at he
    by_cases hip : is_processed st.ledger msg.uid = true
    · simp only [hip, if_true] at he
      exact Or.inl he
    · rw [Bool.not_eq_true] at hip
      simp only [hip, Bool.false_eq_true, if_false] at he
      cases hext : extract use_ai aiRes msg.body msg.from_addr msg.subject msg.raw_headers with
      | none =>
          rw [hext] at he
          dsimp only at he
          rcases mem_mark he with rfl | h
          · exact Or.inr (Or.inr (Or.inl rfl))
          · exact Or.inl h
      | some lead =>
          rw [hext] at he
          dsimp only at he
          by_cases hv : lead.is_valid
          · simp only [hv, Bool.not_true, Bool.false_eq_true, if_false] at he
            rcases mem_mark he with rfl | h
            · rcases create_or_update_cases api ts st.metrics lead with
                ⟨_, hs⟩ | ⟨_, hs⟩ | ⟨_, hs⟩ | ⟨_, hs⟩
              · exact Or.inr (Or.inl hs)
              · exact Or.inr (Or.inr (Or.inr hs))
              · exact Or.inr (Or.inl hs)
              · exact Or.inr (Or.inr (Or.inr hs))
            · exact Or.inl h
          · rw [Bool.not_eq_true] at hv
            simp only [hv, Bool.not_false, if_true] at he
            rcases mem_mark he with rfl | h
            · exact Or.inr (Or.inr (Or.inl rfl))
            · exact Or.inl h
  · intro m lead haction
    rcases create_or_update_cases api ts m lead with
      ⟨ha, hs⟩ | ⟨ha, hs⟩ | ⟨ha, hs⟩ | ⟨ha, hs⟩
    · rcases haction with h | h <;> exact absurd (ha.symm.trans h) (by decide)
    · exact hs
    · rcases haction with h | h <;> exact absurd (ha.symm.trans h) (by decide)
    · exact hs

/-- Counterexample to C9 as stated: a concrete run in which the CRM
create call fails.  The orchestrator records ledger status `"error"` for
the message — a value outside the claim's enumerated status set (the
string `create_failed` appears only in the result's `action` field). -/
theorem c9_counterexample :
    ((getEntry (process_email true (some rawAiLead) apiFailCreate "2025-01-01T00:00:00"
        ⟨[], metrics0⟩ msgAi).2.1.ledger "u9").map (fun e => e.status) = some "error")
    ∧ ¬("error" = "success" ∨ "error" = "extraction_failed"
        ∨ "error" = "create_failed" ∨ "error" = "update_failed") := by
  exact ⟨by decide, by decide⟩

/-- Witness for C9 at a concrete run: the same failing-create scenario,
through both conjuncts of the amended theorem. -/
theorem c9_witness :
    ((create_or_update_contact apiFailCreate "2025-01-01T00:00:00" metrics0
        leadNoEmail).1.action = "create_failed")
    ∧ (create_or_update_contact apiFailCreate "2025-01-01T00:00:00" metrics0
        leadNoEmail).1.status = "error" := by
  refine ⟨by decide, ?_⟩
  exact (c9_ledger_statuses true (some rawAiLead) apiFailCreate "2025-01-01T00:00:00"
    ⟨[], metrics0⟩ msgAi).2 metrics0 leadNoEmail (Or.inl (by decide))

/-- The email-search strategy performs no create call. -/
theorem createEmails_search_by_email (api : GhlApi) (lead : LeadData) :
    createEmails (search_by_email api lead).2 = [] := by
  cases hle : lead.email with
  | none => simp [search_by_email, hle, createEmails]
  | some em =>
      by_cases hem : em = ""
      · simp [search_by_email, hle, hem, createEmails]
      · cases hs : api.search_contacts em with
        | ok cs => simp [search_by_email, hle, hem, hs, createEmails]
        | error err => simp [search_by_email, hle, hem, hs, createEmails]

/-- The phone-search strategy performs no create call. -/
theorem createEmails_search_by_phone (api : GhlApi) (lead : LeadData) :
    createEmails (search_by_phone api lead).2 = [] := by
  cases hle : lead.phone with
  | none => simp [search_by_phone, hle, createEmails]
  | some ph =>
      by_cases hem : ph = ""
      · simp [search_by_phone, hle, hem, createEmails]
      · cases hs : api.search_contacts ph with
        | ok cs => simp [search_by_phone, hle, hem, hs, createEmails]
        | error err => simp [search_by_phone, hle, hem, hs, createEmails]

/-- The name-and-date search strategy performs no create call. -/
theorem createEmails_search_by_name_date (api : GhlApi) (lead : LeadData) :
    createEmails (search_by_name_date api lead).2 = [] := by
  cases hn : lead.name with
  | none => simp [search_by_name_date, hn, createEmails]
  | some nm =>
      cases hw : lead.wedding_date with
      | none => simp [search_by_name_date, hn, hw, createEmails]
      | some wd =>
          by_cases hem : (decide (nm = "") || decide (wd = "")) = true
          · simp [search_by_name_date, hn, hw, hem, createEmails]
          · cases hs : api.search_contacts (nm ++ " " ++ wd) with
            | ok cs => simp [search_by_name_date, hn, hw, hem, hs, createEmails]
            | error err => simp [search_by_name_date, hn, hw, hem, hs, createEmails]

/-- `createEmails` distributes over trace concatenation. -/
theorem createEmails_append (a b : List Event) :
    createEmails (a ++ b) = createEmails a ++ createEmails b := by
  unfold createEmails
  exact List.filterMap_append a b _

/-- The lookup cascade performs no create call. -/
theorem createEmails_find_existing (api : GhlApi) (lead : LeadData) :
    createEmails (find_existing_contact api lead).2 = [] := by
  unfold find_existing_contact
  dsimp only
  split_ifs with h1 h2
  · exact createEmails_search_by_email api lead
  · rw [createEmails_append, createEmails_search_by_email api lead,
      createEmails_search_by_phone api lead]
    rfl
  · rw [createEmails_append, createEmails_append, createEmails_search_by_email api lead,
      createEmails_search_by_phone api lead, createEmails_search_by_name_date api lead]
    rfl

/-- The opportunity-creation helper performs no create-contact call. -/
theorem createEmails_opportunity (api : GhlApi) (lead : LeadData) (cid : String) :
    createEmails (create_sales_opportunity api lead cid).2 = [] := by
  unfold create_sales_opportunity
  dsimp only
  split
  · rfl
  · split
    · rfl
    · split <;> simp [createEmails]

/-- Claim C10: a lead with no email that reaches the contact-creation
path (no existing contact found) is created with the synthetic
placeholder address `noemail-<timestamp>@placeholder.com`: the run's
create calls carry exactly that email, which is never empty. -/
theorem c10_placeholder_email (api : GhlApi) (ts : String) (m : Metrics) (lead : LeadData)
    (hemail : lead.email = none)
    (hfind : (find_existing_contact api lead).1 = none) :
    createEmails (create_or_update_contact api ts m lead).2.2 = [placeholder_email ts]
    ∧ placeholder_email ts ≠ "" := by
  constructor
  · unfold create_or_update_contact
    dsimp only
    rw [hfind]
    dsimp only
    rw [hemail]
    dsimp only
    split
    · rw [createEmails_append, createEmails_find_existing api lead]
      rfl
    · rw [createEmails_append, createEmails_append, createEmails_find_existing api lead,
        createEmails_opportunity]
      rfl
  · intro h
    have hlen := congrArg String.length h
    rw [placeholder_email, String.length_append, String.length_append] at hlen
    simp at hlen
    exact absurd hlen.1.1 (by decide)

/-- Witness for C10: a concrete email-less lead against a CRM whose
searches return no contacts. -/
theorem c10_witness :
    (leadNoEmail.email = none
      ∧ (find_existing_contact apiStub leadNoEmail).1 = none)
    ∧ createEmails (create_or_update_contact apiStub "1700000000.0" metrics0
        leadNoEmail).2.2 = [placeholder_email "1700000000.0"]
    ∧ placeholder_email "1700000000.0" ≠ "" := by
  refine ⟨⟨rfl, by decide⟩, ?_⟩
  exact c10_placeholder_email apiStub "1700000000.0" metrics0 leadNoEmail rfl (by decide)

set_option maxRecDepth 10000 in
/-- Claim C3 (evaluation at the failing input): on scenario A's body
(`Name: Sarah Johnson` / `Email: sarah.johnson@email.com` /
`Phone: (555) 123-4567` / `Wedding Date: June 15, 2025`, sender on the
`weddingwire.com` domain) with the AI backend disabled, the
pattern-fallback path yields email `sarah.johnson@email.com`, phone
`5551234567`, wedding date `2025-06-15`, platform `WeddingWire` and a
valid record, as the claim states — but the name field is
`"Sarah Johnson Email"`, not `"Sarah Johnson"`: the WeddingWire name
pattern's optional third-word group `(?:\s+[A-Z][a-z]+)?`, matched under
`re.IGNORECASE` with `\s+` crossing the newline, also captures the next
line's `Email` label. -/
theorem c3_scenario_extraction :
    extract false none scenarioBody "leads@weddingwire.com" "New lead notification"
        scenarioHeaders = some scenarioLead
    ∧ scenarioLead.email = some "sarah.johnson@email.com"
    ∧ scenarioLead.phone = some "5551234567"
    ∧ scenarioLead.wedding_date = some "2025-06-15"
    ∧ scenarioLead.source_platform = some "WeddingWire"
    ∧ scenarioLead.is_valid = true
    ∧ scenarioLead.name = some "Sarah Johnson Email"
    ∧ scenarioLead.name ≠ some "Sarah Johnson" := by
  refine ⟨by decide, rfl, rfl, rfl, rfl, by decide, rfl, by decide⟩

end EmailPipeline
